import Mathlib

/-!
# Verification of the giftsity seller service order/shipment/return state machine

Shallow embedding of the handlers in src/routes/seller.js:
  - PUT /orders/:id/status        (order status transitions, cancellation)
  - POST /shipping/:orderId/create
  - POST /shipping/:orderId/assign-courier
  - POST /shipping/:orderId/pickup
  - PUT /returns/:id/received

Database records are explicit values, remote services (Shiprocket, Cashfree)
are oracles supplied as parameters, and every `Date.now()` / `new Date()` in a
handler is the parameter `now`.  Each handler returns the persisted state
together with the HTTP response; on an early error return nothing has been
saved, so the outcome carries the unchanged records.
-/

namespace Giftsity

/-- Order lifecycle status.  The keys and values of the transitions table at
src/routes/seller.js:697. -/
inductive OrderStatus
  | pending
  | confirmed
  | processing
  | shipped
  | delivered
  | cancelled
deriving Repr, DecidableEq

/-- The JS string of an order status. -/
def OrderStatus.str : OrderStatus → String
  | .pending => "pending"
  | .confirmed => "confirmed"
  | .processing => "processing"
  | .shipped => "shipped"
  | .delivered => "delivered"
  | .cancelled => "cancelled"

/-- Payment status of an order (`pending|paid|refunded|refund_pending`). -/
inductive PayStatus
  | pending
  | paid
  | refunded
  | refund_pending
deriving Repr, DecidableEq

/-- Shipment status values. -/
inductive ShipStatus
  | created
  | courier_assigned
  | pickup_scheduled
  | picked_up
  | in_transit
  | out_for_delivery
  | delivered
  | cancelled
deriving Repr, DecidableEq

/-- The underscores-to-spaces form of a shipment status, as produced by the
replace call on shipment.status at seller.js:709. -/
def ShipStatus.spaced : ShipStatus → String
  | .created => "created"
  | .courier_assigned => "courier assigned"
  | .pickup_scheduled => "pickup scheduled"
  | .picked_up => "picked up"
  | .in_transit => "in transit"
  | .out_for_delivery => "out for delivery"
  | .delivered => "delivered"
  | .cancelled => "cancelled"

/-- One entry of an order (or return request) statusHistory.
`changedBy` is optional: the refund-failure entry in the returns handler
carries only a changedByRole of system. -/
structure HistoryEntry where
  status : String
  timestamp : Nat
  changedBy : Option String
  changedByRole : String
  note : String
deriving Repr, DecidableEq

/-- One entry of a shipment statusHistory: a status and a description. -/
structure ShipHistoryEntry where
  status : String
  description : String
deriving Repr, DecidableEq

/-- One line item of an order. -/
structure OrderItem where
  productId : String
  quantity : Nat
  price : ℚ
  title : String
  sku : String
deriving Repr, DecidableEq

/-- order.trackingInfo as written by the pickup handler. -/
structure TrackingInfo where
  courierName : String
  trackingNumber : String
  shippedAt : Nat
deriving Repr, DecidableEq

/-- An Order document (the fields the embedded handlers read or write).
`oid` is the Mongo `_id`. -/
structure Order where
  oid : String
  orderNumber : String
  sellerId : String
  status : OrderStatus
  paymentStatus : PayStatus
  totalAmount : ℚ
  cashfreeOrderId : Option String
  refundId : Option String
  items : List OrderItem
  shippingPaidBy : String
  shippingCost : ℚ
  actualShippingCost : Option Int
  statusHistory : List HistoryEntry
  returnStatus : Option String
  trackingInfo : Option TrackingInfo
  cancelledAt : Option Nat
  deliveredAt : Option Nat
deriving Repr, DecidableEq

/-- Shipment dimensions. -/
structure Dimensions where
  length : ℚ
  width : ℚ
  height : ℚ
deriving Repr, DecidableEq

/-- A Shipment document.  The remote identifiers are strings where `""`
stands for a JS-falsy value (absent or empty), matching the truthiness tests
`shipment.shiprocketOrderId` / `shipment.shiprocketShipmentId` in the code. -/
structure Shipment where
  orderId : String
  sellerId : String
  shiprocketOrderId : String
  shiprocketShipmentId : String
  awbCode : String
  courierName : String
  courierId : Option Nat
  weight : ℚ
  dimensions : Dimensions
  shippingCharge : Option Int
  status : ShipStatus
  statusHistory : List ShipHistoryEntry
  labelUrl : String
  pickupScheduledAt : Option Nat
deriving Repr, DecidableEq

/-- The two counters of a Product touched by stock restoration. -/
structure ProductCounters where
  stock : Int
  orderCount : Int
deriving Repr, DecidableEq

/-- The Product collection, as a map from product id to its counters. -/
def ProductDB := String → ProductCounters

/-- An HTTP error response (status code and message). -/
structure ErrResp where
  httpStatus : Nat
  message : String
deriving Repr, DecidableEq

/-- The transitions table at seller.js:697:
`transitions = {pending: [confirmed, cancelled], confirmed: [processing,
shipped, cancelled], shipped: [delivered], processing: [shipped, cancelled]}`,
read as `transitions[order.status] || []`, so statuses absent from the table
(delivered, cancelled) yield the empty list. -/
def allowedTargets : OrderStatus → List OrderStatus
  | .pending => [.confirmed, .cancelled]
  | .confirmed => [.processing, .shipped, .cancelled]
  | .shipped => [.delivered]
  | .processing => [.shipped, .cancelled]
  | .delivered => []
  | .cancelled => []

/-- The `pickedUp` list at seller.js:706: shipment statuses in which the
courier has physical custody of the package. -/
def pickedUpStatuses : List ShipStatus :=
  [.picked_up, .in_transit, .out_for_delivery, .delivered]

/-- One `Product.findByIdAndUpdate(item.productId, { $inc: stockInc })` step
(seller.js:724-726): stock is incremented by the item quantity, and when the
order was paid the orderCount is additionally decremented by it. -/
def applyStockInc (paid : Bool) (db : ProductDB) (item : OrderItem) : ProductDB :=
  fun pid =>
    if pid = item.productId then
      { stock := (db pid).stock + item.quantity
        orderCount :=
          if paid then (db pid).orderCount - item.quantity else (db pid).orderCount }
    else db pid

/-- The stock-restoration loop at seller.js:723-727. -/
def restoreStock (paid : Bool) (db : ProductDB) (items : List OrderItem) : ProductDB :=
  items.foldl (applyStockInc paid) db

/-- Oracle for the Cashfree calls made during cancellation:
`orderAmount` is the result of `getCashfreeOrder` (`none` = the call throws,
`some none` = response without a truthy `order_amount`, `some (some a)` = it
reports amount `a`), and `refundOk` tells whether `createRefund` succeeds. -/
structure GatewayEnv where
  orderAmount : Option (Option ℚ)
  refundOk : Bool
deriving Repr, DecidableEq

/-- Side effects recorded by the status-update handler. -/
structure CancelEffects where
  remoteCancelCalled : Bool
  refundAttempted : Bool
  refundAmount : Option ℚ
deriving Repr, DecidableEq

/-- Outcome of PUT /orders/:id/status: the HTTP response and the persisted
order, shipment and product records. -/
structure UpdateOutcome where
  resp : Except ErrResp String
  order : Order
  shipment : Option Shipment
  products : ProductDB
  effects : CancelEffects

/-- The statusHistory entry pushed at seller.js:760. -/
def transitionEntry (sellerId : String) (now : Nat) (target : OrderStatus) :
    HistoryEntry :=
  { status := target.str, timestamp := now, changedBy := some sellerId
    changedByRole := "seller", note := "Marked " ++ target.str ++ " by seller" }

/-- The tail of the cancellation branch (seller.js:722-749 followed by the
history push and save at 759-761): restore stock, attempt the Cashfree refund
when the order is paid and has a gateway order reference, append the history
entry and persist. -/
def cancelTail (sellerId : String) (now : Nat) (env : GatewayEnv) (o2 : Order)
    (sh : Option Shipment) (db : ProductDB) (remoteCalled : Bool) :
    UpdateOutcome :=
  let db' := restoreStock (decide (o2.paymentStatus = PayStatus.paid)) db o2.items
  let refunded : Order × Bool × Option ℚ :=
    match o2.cashfreeOrderId with
    | some _ =>
      if o2.paymentStatus = PayStatus.paid then
        let amt : ℚ :=
          match env.orderAmount with
          | some (some a) => if a = 0 then o2.totalAmount else min o2.totalAmount a
          | _ => o2.totalAmount
        let rid := "refund_" ++ o2.orderNumber ++ "_" ++ toString now
        if env.refundOk then
          ({ o2 with paymentStatus := PayStatus.refunded, refundId := some rid },
            true, some amt)
        else
          ({ o2 with paymentStatus := PayStatus.refund_pending }, true, some amt)
      else (o2, false, none)
    | none => (o2, false, none)
  let o3 := refunded.1
  let o4 := { o3 with statusHistory :=
    o3.statusHistory ++ [transitionEntry sellerId now OrderStatus.cancelled] }
  { resp := Except.ok ("Order " ++ OrderStatus.cancelled.str)
    order := o4, shipment := sh, products := db'
    effects := ⟨remoteCalled, refunded.2.1, refunded.2.2⟩ }

/-- PUT /orders/:id/status (seller.js:691-788), for an order already found by
`{_id, sellerId}`; `shipmentOpt` is the result of the shipment lookup inside
the cancellation branch.  Best-effort side effects (remote shipment cancel,
emails, notifications) never alter the control flow; the remote cancel is
recorded as an effect. -/
def updateOrderStatus (sellerId : String) (now : Nat) (env : GatewayEnv)
    (order : Order) (shipmentOpt : Option Shipment) (db : ProductDB)
    (target : OrderStatus) : UpdateOutcome :=
  if target ∈ allowedTargets order.status then
    let o1 := { order with status := target }
    if target = OrderStatus.cancelled then
      let o2 := { o1 with cancelledAt := some now }
      match shipmentOpt with
      | some s =>
        if s.shiprocketOrderId ≠ "" then
          if s.status ∈ pickedUpStatuses then
            { resp := Except.error ⟨400,
                "Cannot cancel — package already " ++ s.status.spaced ++ " by courier"⟩
              order := order, shipment := shipmentOpt, products := db
              effects := ⟨false, false, none⟩ }
          else
            let s1 := { s with
              status := ShipStatus.cancelled,
              statusHistory := s.statusHistory ++ [⟨"cancelled", "Cancelled by seller"⟩] }
            cancelTail sellerId now env o2 (some s1) db true
        else
          cancelTail sellerId now env o2 (some s) db false
      | none => cancelTail sellerId now env o2 none db false
    else
      let o2 :=
        if target = OrderStatus.delivered then { o1 with deliveredAt := some now } else o1
      let o3 := { o2 with statusHistory :=
        o2.statusHistory ++ [transitionEntry sellerId now target] }
      { resp := Except.ok ("Order " ++ target.str), order := o3
        shipment := shipmentOpt, products := db, effects := ⟨false, false, none⟩ }
  else
    { resp := Except.error ⟨400,
        "Cannot change from " ++ order.status.str ++ " to " ++ target.str⟩
      order := order, shipment := shipmentOpt, products := db
      effects := ⟨false, false, none⟩ }

/-! ## Shipping handlers (Shiprocket) -/

/-- Math.max(lo, Math.min(hi, x)): the clamping used for weight and
dimensions at seller.js:1186-1189. -/
def clampQ (lo hi x : ℚ) : ℚ := max lo (min hi x)

/-- The idiom Number(v) || d: a missing, non-numeric or zero body value falls
back to the default. -/
def numOr (v : Option ℚ) (d : ℚ) : ℚ :=
  match v with
  | some x => if x = 0 then d else x
  | none => d

/-- JS Math.round: round half toward positive infinity. -/
def jsRound (q : ℚ) : Int := (q + 1 / 2).floor

/-- JS String.prototype.includes on lists of characters. -/
def jsIncludes (s sub : String) : Bool :=
  decide (sub.toList <:+: s.toList)

/-- Modelled from the spec: the helper isValidTransition imported by the
handlers from server/utils/orderStatus.js, whose source is not part of this
snapshot.  Spec section 4.1 gives its transition table, which coincides with
the table at seller.js:697. -/
def isValidTransition (curr target : OrderStatus) : Bool :=
  decide (target ∈ allowedTargets curr)

/-- The seller profile fields read by the shipping handlers; the registered
pickup location name is `""` when absent. -/
structure Seller where
  sid : String
  shiprocketPickupVerified : Bool
  shiprocketPickupLocation : String
deriving Repr, DecidableEq

/-- One pickup location returned by shiprocket.getPickupLocations. -/
structure PickupLocation where
  pickup_location : String
  status : Nat
  phone_verified : Nat
deriving Repr, DecidableEq

/-- The remote creation response after the id extraction at
seller.js:1240-1241: order id and shipment id each normalised to a string,
`""` when absent from every response shape. -/
structure CreateResp where
  orderId : String
  shipmentId : String
deriving Repr, DecidableEq

/-- Oracle results for the Shiprocket calls made by
POST /shipping/:orderId/create.  `none` on an oracle field means the remote
call throws; `detailsShipments` is the (possibly empty) list of shipment ids
found in getShiprocketOrderDetails, each already stringified with `""` for a
missing id field. -/
structure CreateEnv where
  pickupLocations : Option (List PickupLocation)
  createResp : Option CreateResp
  detailsShipments : Option (List String)
deriving Repr, DecidableEq

/-- The request body of POST /shipping/:orderId/create. -/
structure CreateBody where
  weight : Option ℚ
  length : Option ℚ
  width : Option ℚ
  height : Option ℚ
deriving Repr, DecidableEq

/-- Outcome of POST /shipping/:orderId/create: response plus the persisted
shipment, order and seller records, and whether createShiprocketOrder was
called. -/
structure CreateOutcome where
  resp : Except ErrResp Unit
  shipment : Option Shipment
  order : Order
  seller : Seller
  remoteCreateCalled : Bool
deriving Repr

/-- A fresh Shipment document as built by new Shipment at seller.js:1264. -/
def newShipment (orderId sellerId : String) : Shipment :=
  { orderId := orderId, sellerId := sellerId, shiprocketOrderId := ""
    shiprocketShipmentId := "", awbCode := "", courierName := ""
    courierId := none, weight := 0, dimensions := ⟨0, 0, 0⟩
    shippingCharge := none, status := ShipStatus.created, statusHistory := []
    labelUrl := "", pickupScheduledAt := none }

/-- POST /shipping/:orderId/create (seller.js:1147-1285). `existing` is the
result of the Shipment.findOne lookup.  On success the shipment is persisted
with status created and the order is advanced to processing. -/
def createShipment (sellerId : String) (env : CreateEnv) (order : Order)
    (existing : Option Shipment) (seller : Seller) (body : CreateBody) :
    CreateOutcome :=
  let fail := fun (e : ErrResp) (seller2 : Seller) (called : Bool) =>
    CreateOutcome.mk (Except.error e) existing order seller2 called
  if order.sellerId ≠ sellerId then fail ⟨403, "Not your order"⟩ seller false
  else if order.paymentStatus ≠ PayStatus.paid then
    fail ⟨400, "Order not paid"⟩ seller false
  else if existing.elim false (fun e => e.shiprocketOrderId != "") then
    fail ⟨400, "Shipment already created"⟩ seller false
  else
    let verified : Seller × Bool :=
      if seller.shiprocketPickupVerified then (seller, true)
      else if seller.shiprocketPickupLocation ≠ "" then
        match env.pickupLocations with
        | some locs =>
          match locs.find? (fun l => l.pickup_location == seller.shiprocketPickupLocation) with
          | some loc =>
            if loc.phone_verified = 1 then
              ({ seller with shiprocketPickupVerified := true }, true)
            else (seller, false)
          | none => (seller, false)
        | none => (seller, false)
      else (seller, false)
    let seller1 := verified.1
    if verified.2 = false then
      fail ⟨400, "Your pickup address phone is not verified on Shiprocket. Please verify it in Seller Settings before creating shipments."⟩ seller1 false
    else
      let weight := clampQ 50 50000 (numOr body.weight 500)
      let length := clampQ 1 200 (numOr body.length 10)
      let width := clampQ 1 200 (numOr body.width 10)
      let height := clampQ 1 200 (numOr body.height 10)
      let pickupLocationName :=
        if seller.shiprocketPickupLocation ≠ "" then seller.shiprocketPickupLocation
        else
          match env.pickupLocations with
          | some locs =>
            match locs.find? (fun l => l.status == 2) with
            | some l => l.pickup_location
            | none => match locs with | l :: _ => l.pickup_location | [] => ""
          | none => ""
      if pickupLocationName = "" then
        fail ⟨400, "No pickup location configured. Please save your pickup address in Seller Settings first."⟩ seller1 false
      else
        match env.createResp with
        | none => fail ⟨500, "Failed to create shipment"⟩ seller1 true
        | some resp =>
          if resp.orderId = "" then
            fail ⟨500, "Shiprocket did not return an order ID"⟩ seller1 true
          else
            let srShipmentId :=
              if resp.shipmentId = "" then
                match env.detailsShipments with
                | some (h :: _) => h
                | _ => ""
              else resp.shipmentId
            let base := existing.getD (newShipment order.oid sellerId)
            let shp := { base with
              shiprocketOrderId := resp.orderId,
              shiprocketShipmentId := srShipmentId,
              weight := weight,
              dimensions := ⟨length, width, height⟩,
              status := ShipStatus.created,
              statusHistory := base.statusHistory ++
                [⟨"created", "Shipment created on Shiprocket"⟩] }
            let order1 := { order with status := OrderStatus.processing }
            ⟨Except.ok (), some shp, order1, seller1, true⟩

/-- The remote assignCourier response with awb code and courier name each
normalised to a string (seller.js:1314-1315), `""` when absent. -/
structure AssignResp where
  awbCode : String
  courierName : String
deriving Repr, DecidableEq

/-- Oracle results for POST /shipping/:orderId/assign-courier: the order
details used by the self-heal, and the remote assignCourier result (`none` =
the call throws). -/
structure AssignEnv where
  detailsShipments : Option (List String)
  assignResp : Option AssignResp
deriving Repr, DecidableEq

/-- Outcome of POST /shipping/:orderId/assign-courier. -/
structure AssignOutcome where
  resp : Except ErrResp Unit
  shipment : Option Shipment
  order : Option Order
  detailsFetchCalled : Bool
  remoteAssignCalled : Bool
deriving Repr

/-- The truthiness test courierRate && courierRate > 0. -/
def ratePos : Option ℚ → Bool
  | some q => decide (0 < q)
  | none => false

/-- POST /shipping/:orderId/assign-courier (seller.js:1287-1338).  When the
local shipment misses its remote shipment id but has a remote order id, the
handler first re-queries the provider order details and persists a recovered
id (the save at seller.js:1300) before the MissingShipmentId failure check. -/
def assignCourier (env : AssignEnv) (shipmentOpt : Option Shipment)
    (orderOpt : Option Order) (courierId : Nat) (courierRate : Option ℚ) :
    AssignOutcome :=
  match shipmentOpt with
  | none => ⟨Except.error ⟨404, "Shipment not found"⟩, none, orderOpt, false, false⟩
  | some s0 =>
    let healed : Shipment × Bool :=
      if s0.shiprocketShipmentId = "" ∧ s0.shiprocketOrderId ≠ "" then
        match env.detailsShipments with
        | some (h :: _) =>
          if h ≠ "" then ({ s0 with shiprocketShipmentId := h }, true) else (s0, true)
        | _ => (s0, true)
      else (s0, false)
    let s1 := healed.1
    if s1.shiprocketShipmentId = "" then
      ⟨Except.error ⟨400, "Shipment ID missing — please recreate the shipment"⟩,
        some s1, orderOpt, healed.2, false⟩
    else
      match env.assignResp with
      | none =>
        ⟨Except.error ⟨500, "Failed to assign courier"⟩, some s1, orderOpt, healed.2, true⟩
      | some r =>
        let s2 := { s1 with
          awbCode := r.awbCode,
          courierName := r.courierName,
          courierId := some courierId,
          shippingCharge :=
            if ratePos courierRate then some (jsRound (courierRate.getD 0))
            else s1.shippingCharge,
          statusHistory := s1.statusHistory ++
            [⟨"courier_assigned", "Courier: " ++ r.courierName⟩] }
        let orderOpt1 :=
          if ratePos courierRate then
            match orderOpt with
            | some o =>
              if o.shippingPaidBy = "seller" then
                some { o with actualShippingCost := some (jsRound (courierRate.getD 0)) }
              else some o
            | none => none
          else orderOpt
        ⟨Except.ok (), some s2, orderOpt1, healed.2, true⟩

/-- Oracle for shiprocket.schedulePickup: ok, or the error message string of
the thrown error. -/
structure PickupEnv where
  result : Except String Unit
deriving Repr

/-- Outcome of POST /shipping/:orderId/pickup. -/
structure PickupOutcome where
  resp : Except ErrResp Unit
  shipment : Option Shipment
  order : Option Order
deriving Repr

/-- POST /shipping/:orderId/pickup (seller.js:1340-1393).  A remote error
whose lowercased message contains already, scheduled or pickup is treated as
success; otherwise the error is passed through as a 500.  On success the
shipment becomes pickup_scheduled (the pickupScheduledAt stamp is not
overwritten) and the order is advanced to shipped when that transition is
valid. -/
def schedulePickup (sellerId : String) (now : Nat) (env : PickupEnv)
    (shipmentOpt : Option Shipment) (orderOpt : Option Order) : PickupOutcome :=
  match shipmentOpt with
  | none => ⟨Except.error ⟨404, "Shipment not found"⟩, none, orderOpt⟩
  | some s0 =>
    let proceed : Bool :=
      match env.result with
      | Except.ok _ => true
      | Except.error m =>
        jsIncludes m.toLower "already" || jsIncludes m.toLower "scheduled" ||
          jsIncludes m.toLower "pickup"
    if proceed = false then
      let msg :=
        match env.result with
        | Except.error m => if m = "" then "Failed to schedule pickup" else m
        | Except.ok _ => "Failed to schedule pickup"
      ⟨Except.error ⟨500, msg⟩, some s0, orderOpt⟩
    else
      let s1 := { s0 with
        status := ShipStatus.pickup_scheduled,
        pickupScheduledAt := some (s0.pickupScheduledAt.getD now),
        statusHistory := s0.statusHistory ++ [⟨"pickup_scheduled", "Pickup scheduled"⟩] }
      let orderOpt1 :=
        match orderOpt with
        | some o =>
          if isValidTransition o.status OrderStatus.shipped then
            some { o with
              status := OrderStatus.shipped,
              trackingInfo := some ⟨s1.courierName, s1.awbCode, now⟩,
              statusHistory := o.statusHistory ++
                [⟨"shipped", now, some sellerId, "seller",
                  "Shipped via " ++ s1.courierName⟩] }
          else some o
        | none => none
      ⟨Except.ok (), some s1, orderOpt1⟩

/-! ## Returns handler -/

/-- Status of a return request. -/
inductive RetStatus
  | requested
  | approved
  | rejected
  | shipped_back
  | received
  | refunded
  | exchanged
deriving Repr, DecidableEq

/-- A ReturnRequest document (the fields read or written by the received
handler). -/
structure ReturnRequest where
  rid : String
  orderId : String
  customerId : String
  sellerId : String
  type : String
  status : RetStatus
  refundAmount : ℚ
  refundId : Option String
  rejectionReason : Option String
  statusHistory : List HistoryEntry
  resolvedAt : Option Nat
deriving Repr, DecidableEq

/-- Oracle for the Cashfree createRefund call in the returns handler:
whether it succeeds, and the error message when it throws. -/
structure RefundEnv where
  refundOk : Bool
  errMsg : String
deriving Repr, DecidableEq

/-- Outcome of PUT /returns/:id/received. -/
structure ReceivedOutcome where
  resp : Except ErrResp Unit
  returnReq : ReturnRequest
  order : Option Order
  refundCalled : Bool
deriving Repr

/-- PUT /returns/:id/received (seller.js:1608-1695), for a return request
already found by id; `orderOpt` is the Order.findById result.  For a return
with a gateway order reference and positive refund amount a refund is
attempted: on success the request moves to refunded and the order payment
status becomes refund_pending with the refund id recorded; on failure the
request stays at received with a system history note and no refund id. -/
def markReceived (sellerId : String) (now : Nat) (env : RefundEnv)
    (returnReq : ReturnRequest) (orderOpt : Option Order) : ReceivedOutcome :=
  if returnReq.sellerId ≠ sellerId then
    ⟨Except.error ⟨403, "Not your return request"⟩, returnReq, orderOpt, false⟩
  else if returnReq.status ∉ [RetStatus.approved, RetStatus.shipped_back] then
    ⟨Except.error ⟨400, "Item must be approved or shipped back first"⟩,
      returnReq, orderOpt, false⟩
  else
    let r1 := { returnReq with
      status := RetStatus.received,
      statusHistory := returnReq.statusHistory ++
        [⟨"received", now, some sellerId, "seller", "Item received by seller"⟩] }
    let refundCase : Bool :=
      returnReq.type == "return" &&
        (match orderOpt with
         | some o => o.cashfreeOrderId.isSome
         | none => false) &&
        decide (0 < returnReq.refundAmount)
    let step : ReturnRequest × Option Order × Bool :=
      if refundCase then
        match orderOpt with
        | some o =>
          let refundId := "return_" ++ o.orderNumber ++ "_" ++ toString now
          if env.refundOk then
            let r2 := { r1 with
              refundId := some refundId,
              status := RetStatus.refunded,
              statusHistory := r1.statusHistory ++
                [⟨"refunded", now, some sellerId, "seller",
                  "Refund initiated: " ++ refundId⟩] }
            let o2 := { o with
              returnStatus := some "completed",
              paymentStatus := PayStatus.refund_pending,
              refundId := some refundId,
              statusHistory := o.statusHistory ++
                [⟨"return_refunded", now, some sellerId, "seller",
                  "Refund: Rs." ++ toString returnReq.refundAmount⟩] }
            (r2, some o2, true)
          else
            let r2 := { r1 with statusHistory := r1.statusHistory ++
              [⟨"received", now, none, "system", "Refund failed: " ++ env.errMsg⟩] }
            (r2, some o, true)
        | none => (r1, none, false)
      else if returnReq.type == "exchange" then
        let r2 := { r1 with
          status := RetStatus.exchanged,
          statusHistory := r1.statusHistory ++
            [⟨"exchanged", now, some sellerId, "seller",
              "Exchange item received, replacement will be shipped"⟩] }
        let orderOpt2 :=
          match orderOpt with
          | some o => some { o with
              returnStatus := some "completed",
              statusHistory := o.statusHistory ++
                [⟨"exchange_completed", now, some sellerId, "seller",
                  "Exchange processed"⟩] }
          | none => none
        (r2, orderOpt2, false)
      else (r1, orderOpt, false)
    let r3 := { step.1 with resolvedAt := some now }
    ⟨Except.ok (), r3, step.2.1, step.2.2⟩

/-! Sample records used by witness theorems. -/

/-- A product table with all counters zero. -/
def emptyDB : ProductDB := fun _ => ⟨0, 0⟩

/-- A sample confirmed, paid order with one line item. -/
def sampleOrder : Order :=
  { oid := "o1", orderNumber := "ORD1", sellerId := "s1"
    status := OrderStatus.confirmed, paymentStatus := PayStatus.paid
    totalAmount := 500, cashfreeOrderId := some "cf1", refundId := none
    items := [⟨"p1", 2, 250, "Gift", "SKU1"⟩]
    shippingPaidBy := "seller", shippingCost := 0, actualShippingCost := none
    statusHistory := [], returnStatus := none, trackingInfo := none
    cancelledAt := none, deliveredAt := none }

/-- A sample shipment attached to sampleOrder. -/
def sampleShipment : Shipment :=
  { orderId := "o1", sellerId := "s1", shiprocketOrderId := "sr1"
    shiprocketShipmentId := "shp1", awbCode := "", courierName := ""
    courierId := none, weight := 500, dimensions := ⟨10, 10, 10⟩
    shippingCharge := none, status := ShipStatus.created, statusHistory := []
    labelUrl := "", pickupScheduledAt := none }

/-! ## Helper lemmas -/

/-- The response, persisted shipment and remote-cancel effect of the
cancellation tail do not depend on the refund branch. -/
theorem cancelTail_resp (sellerId : String) (now : Nat) (env : GatewayEnv)
    (o : Order) (sh : Option Shipment) (db : ProductDB) (rc : Bool) :
    (cancelTail sellerId now env o sh db rc).resp =
      Except.ok ("Order " ++ OrderStatus.cancelled.str) := rfl

/-- The cancellation tail passes the shipment through unchanged. -/
theorem cancelTail_shipment (sellerId : String) (now : Nat) (env : GatewayEnv)
    (o : Order) (sh : Option Shipment) (db : ProductDB) (rc : Bool) :
    (cancelTail sellerId now env o sh db rc).shipment = sh := rfl

/-- The remote-cancel effect of the cancellation tail is its argument. -/
theorem cancelTail_remoteCancel (sellerId : String) (now : Nat)
    (env : GatewayEnv) (o : Order) (sh : Option Shipment) (db : ProductDB)
    (rc : Bool) :
    (cancelTail sellerId now env o sh db rc).effects.remoteCancelCalled = rc := rfl

/-- The products persisted by the cancellation tail are the stock
restoration applied to the incoming table. -/
theorem cancelTail_products (sellerId : String) (now : Nat) (env : GatewayEnv)
    (o : Order) (sh : Option Shipment) (db : ProductDB) (rc : Bool) :
    (cancelTail sellerId now env o sh db rc).products =
      restoreStock (decide (o.paymentStatus = PayStatus.paid)) db o.items := rfl

/-- The cancellation tail appends exactly the seller history entry for
cancelled and keeps the order status it was given. -/
theorem cancelTail_history (sellerId : String) (now : Nat) (env : GatewayEnv)
    (o : Order) (sh : Option Shipment) (db : ProductDB) (rc : Bool) :
    (cancelTail sellerId now env o sh db rc).order.statusHistory =
      o.statusHistory ++ [transitionEntry sellerId now OrderStatus.cancelled]
    ∧ (cancelTail sellerId now env o sh db rc).order.status = o.status := by
  unfold cancelTail
  cases h : o.cashfreeOrderId <;> simp only [h] <;> (try split_ifs) <;> simp

/-- A requested status outside the allowed-set of the current status yields
the 400 response naming both statuses. -/
theorem updateOrderStatus_invalid (sellerId : String) (now : Nat)
    (env : GatewayEnv) (o : Order) (sh : Option Shipment) (db : ProductDB)
    (target : OrderStatus) (hmem : target ∉ allowedTargets o.status) :
    (updateOrderStatus sellerId now env o sh db target).resp =
      Except.error ⟨400,
        "Cannot change from " ++ o.status.str ++ " to " ++ target.str⟩ := by
  simp [updateOrderStatus, hmem]

/-! ## Claim theorems -/

/-- C1: the status-update operation succeeds only when the requested status
is in the allowed-set of the current status per the transition table
pending to confirmed/cancelled, confirmed to processing/shipped/cancelled,
processing to shipped/cancelled, shipped to delivered; otherwise it fails
with HTTP 400 and a message naming both the current and the requested status;
in particular confirmed to delivered is rejected and delivered/cancelled
admit no further transition. -/
theorem statusUpdate_transition_table (sellerId : String) (now : Nat)
    (env : GatewayEnv) (order : Order) (sh : Option Shipment) (db : ProductDB)
    (target : OrderStatus) :
    ((updateOrderStatus sellerId now env order sh db target).resp.isOk = true →
      target ∈ allowedTargets order.status)
    ∧ (target ∉ allowedTargets order.status →
      (updateOrderStatus sellerId now env order sh db target).resp =
        Except.error ⟨400,
          "Cannot change from " ++ order.status.str ++ " to " ++ target.str⟩)
    ∧ allowedTargets OrderStatus.pending = [OrderStatus.confirmed, OrderStatus.cancelled]
    ∧ allowedTargets OrderStatus.confirmed =
        [OrderStatus.processing, OrderStatus.shipped, OrderStatus.cancelled]
    ∧ allowedTargets OrderStatus.processing =
        [OrderStatus.shipped, OrderStatus.cancelled]
    ∧ allowedTargets OrderStatus.shipped = [OrderStatus.delivered]
    ∧ allowedTargets OrderStatus.delivered = []
    ∧ allowedTargets OrderStatus.cancelled = []
    ∧ OrderStatus.delivered ∉ allowedTargets OrderStatus.confirmed := by
  refine ⟨?_, ?_, rfl, rfl, rfl, rfl, rfl, rfl, by decide⟩
  · intro hok
    by_contra hmem
    simp [updateOrderStatus, hmem, Except.isOk, Except.toBool] at hok
  · intro hmem
    simp [updateOrderStatus, hmem]

/-- Witness for C1: a confirmed order with requested status delivered is
rejected with the message naming both statuses. -/
theorem statusUpdate_transition_table_witness :
    (updateOrderStatus "s1" 0 ⟨none, true⟩ sampleOrder none emptyDB
      OrderStatus.delivered).resp =
      Except.error ⟨400, "Cannot change from confirmed to delivered"⟩ := by
  have h := statusUpdate_transition_table "s1" 0 ⟨none, true⟩ sampleOrder none
    emptyDB OrderStatus.delivered
  exact h.2.1 (by decide)

/-- C2 counterexample: an order whose shipment is already picked up but whose
shipment carries no remote order id is cancelled successfully instead of
always failing with CancellationBlocked. -/
theorem cancelBlocked_counterexample :
    (updateOrderStatus "s1" 0 ⟨none, true⟩ sampleOrder
      (some { sampleShipment with
                shiprocketOrderId := "",
                status := ShipStatus.picked_up })
      emptyDB OrderStatus.cancelled).resp.isOk = true := by
  decide

/-- C2 (amended): for every order whose shipment carries a non-empty remote
order id and a status in picked_up/in_transit/out_for_delivery/delivered, and
whose own status admits the transition to cancelled, the cancellation request
fails with HTTP 400 naming the custody state, and the persisted order,
shipment and product records are unchanged. -/
theorem cancelBlocked_custody (sellerId : String) (now : Nat)
    (env : GatewayEnv) (order : Order) (s : Shipment) (db : ProductDB)
    (hid : s.shiprocketOrderId ≠ "")
    (hst : s.status ∈ pickedUpStatuses)
    (hallow : OrderStatus.cancelled ∈ allowedTargets order.status) :
    (updateOrderStatus sellerId now env order (some s) db
        OrderStatus.cancelled).resp =
      Except.error ⟨400,
        "Cannot cancel — package already " ++ s.status.spaced ++ " by courier"⟩
    ∧ (updateOrderStatus sellerId now env order (some s) db
        OrderStatus.cancelled).order = order
    ∧ (updateOrderStatus sellerId now env order (some s) db
        OrderStatus.cancelled).shipment = some s := by
  simp [updateOrderStatus, hallow, hid, hst]

/-- Witness for C2 (amended) at a concrete in-transit shipment. -/
theorem cancelBlocked_custody_witness :
    (updateOrderStatus "s1" 0 ⟨none, true⟩ sampleOrder
        (some { sampleShipment with status := ShipStatus.in_transit }) emptyDB
        OrderStatus.cancelled).resp =
      Except.error ⟨400, "Cannot cancel — package already in transit by courier"⟩ := by
  have h := cancelBlocked_custody "s1" 0 ⟨none, true⟩ sampleOrder
    { sampleShipment with status := ShipStatus.in_transit } emptyDB
    (by decide) (by decide) (by decide)
  exact h.1

/-- C10: when the shipment lookup yields no record carrying a non-empty
remote order id, the custody check never blocks cancellation, the local
shipment record is left exactly as it was (not marked cancelled), and no
remote cancellation is attempted. -/
theorem cancel_guard_no_remote_id (sellerId : String) (now : Nat)
    (env : GatewayEnv) (order : Order) (shOpt : Option Shipment)
    (db : ProductDB)
    (hno : ∀ s, shOpt = some s → s.shiprocketOrderId = "")
    (hallow : OrderStatus.cancelled ∈ allowedTargets order.status) :
    ((updateOrderStatus sellerId now env order shOpt db
        OrderStatus.cancelled).resp).isOk = true
    ∧ (updateOrderStatus sellerId now env order shOpt db
        OrderStatus.cancelled).shipment = shOpt
    ∧ (updateOrderStatus sellerId now env order shOpt db
        OrderStatus.cancelled).effects.remoteCancelCalled = false := by
  cases shOpt with
  | none =>
    simp [updateOrderStatus, hallow, cancelTail_resp, cancelTail_shipment,
      cancelTail_remoteCancel, Except.isOk, Except.toBool]
  | some s =>
    have hid := hno s rfl
    simp [updateOrderStatus, hallow, hid, cancelTail_resp, cancelTail_shipment,
      cancelTail_remoteCancel, Except.isOk, Except.toBool]

/-- Witness for C10: cancelling a pending order whose shipment has no remote
order id succeeds, keeps the shipment record, and calls no remote cancel. -/
theorem cancel_guard_no_remote_id_witness :
    ((updateOrderStatus "s1" 0 ⟨none, true⟩
        { sampleOrder with status := OrderStatus.pending }
        (some { sampleShipment with shiprocketOrderId := "" }) emptyDB
        OrderStatus.cancelled).resp).isOk = true
    ∧ (updateOrderStatus "s1" 0 ⟨none, true⟩
        { sampleOrder with status := OrderStatus.pending }
        (some { sampleShipment with shiprocketOrderId := "" }) emptyDB
        OrderStatus.cancelled).shipment =
      some { sampleShipment with shiprocketOrderId := "" } := by
  have h := cancel_guard_no_remote_id "s1" 0 ⟨none, true⟩
    { sampleOrder with status := OrderStatus.pending }
    (some { sampleShipment with shiprocketOrderId := "" }) emptyDB
    (by intro s hs; cases hs; rfl) (by decide)
  exact ⟨h.1, h.2.1⟩

/-- When cancelled is an allowed target and no shipment with a non-empty
remote order id is in courier custody, the status-update handler reduces to
the cancellation tail on the order with status cancelled and cancelledAt
stamped. -/
theorem updateOrderStatus_cancel_eq (sellerId : String) (now : Nat)
    (env : GatewayEnv) (order : Order) (shOpt : Option Shipment)
    (db : ProductDB)
    (hallow : OrderStatus.cancelled ∈ allowedTargets order.status)
    (hcust : ∀ s, shOpt = some s → s.shiprocketOrderId ≠ "" →
      s.status ∉ pickedUpStatuses) :
    ∃ sh2 rc,
      updateOrderStatus sellerId now env order shOpt db OrderStatus.cancelled =
        cancelTail sellerId now env
          { order with status := OrderStatus.cancelled, cancelledAt := some now }
          sh2 db rc := by
  cases shOpt with
  | none => exact ⟨none, false, by simp [updateOrderStatus, hallow]⟩
  | some s =>
    by_cases hid : s.shiprocketOrderId = ""
    · exact ⟨some s, false, by simp [updateOrderStatus, hallow, hid]⟩
    · have hc := hcust s rfl hid
      refine ⟨some { s with
          status := ShipStatus.cancelled,
          statusHistory := s.statusHistory ++ [⟨"cancelled", "Cancelled by seller"⟩] },
        true, ?_⟩
      simp [updateOrderStatus, hallow, hid, hc]

/-- Refund behaviour of the cancellation tail for a paid order carrying a
gateway order reference. -/
theorem cancelTail_refund (sellerId : String) (now : Nat) (env : GatewayEnv)
    (o : Order) (sh : Option Shipment) (db : ProductDB) (rc : Bool)
    (cf : String)
    (hp : o.paymentStatus = PayStatus.paid)
    (hcf : o.cashfreeOrderId = some cf) :
    (cancelTail sellerId now env o sh db rc).effects.refundAttempted = true
    ∧ (∀ a : ℚ, env.orderAmount = some (some a) → a ≠ 0 →
        (cancelTail sellerId now env o sh db rc).effects.refundAmount =
          some (min o.totalAmount a))
    ∧ (env.refundOk = true →
        (cancelTail sellerId now env o sh db rc).order.paymentStatus =
          PayStatus.refunded
        ∧ (cancelTail sellerId now env o sh db rc).order.refundId =
            some ("refund_" ++ o.orderNumber ++ "_" ++ toString now))
    ∧ (env.refundOk = false →
        (cancelTail sellerId now env o sh db rc).order.paymentStatus =
          PayStatus.refund_pending
        ∧ (cancelTail sellerId now env o sh db rc).order.refundId = o.refundId) := by
  unfold cancelTail
  cases hr : env.refundOk <;>
    simp only [hcf, hp, hr] <;>
    refine ⟨by simp, fun a ha hna => by simp [ha, hna], ?_, ?_⟩ <;>
    simp

/-- C3: cancelling a paid order with a gateway order reference initiates a
refund for the minimum of totalAmount and the gateway-reported amount; on
refund success the order paymentStatus becomes refunded with the refund id
recorded, on refund failure it becomes refund_pending while the order is
still cancelled and the call still succeeds. -/
theorem cancelRefund_flow (sellerId : String) (now : Nat) (env : GatewayEnv)
    (order : Order) (shOpt : Option Shipment) (db : ProductDB) (cf : String)
    (hp : order.paymentStatus = PayStatus.paid)
    (hcf : order.cashfreeOrderId = some cf)
    (hallow : OrderStatus.cancelled ∈ allowedTargets order.status)
    (hcust : ∀ s, shOpt = some s → s.shiprocketOrderId ≠ "" →
      s.status ∉ pickedUpStatuses) :
    let out := updateOrderStatus sellerId now env order shOpt db
      OrderStatus.cancelled
    out.resp.isOk = true
    ∧ out.order.status = OrderStatus.cancelled
    ∧ out.effects.refundAttempted = true
    ∧ (∀ a : ℚ, env.orderAmount = some (some a) → a ≠ 0 →
        out.effects.refundAmount = some (min order.totalAmount a))
    ∧ (env.refundOk = true →
        out.order.paymentStatus = PayStatus.refunded
        ∧ out.order.refundId =
            some ("refund_" ++ order.orderNumber ++ "_" ++ toString now))
    ∧ (env.refundOk = false →
        out.order.paymentStatus = PayStatus.refund_pending) := by
  obtain ⟨sh2, rc, heq⟩ :=
    updateOrderStatus_cancel_eq sellerId now env order shOpt db hallow hcust
  have hrf := cancelTail_refund sellerId now env
    { order with status := OrderStatus.cancelled, cancelledAt := some now }
    sh2 db rc cf hp hcf
  have hh := cancelTail_history sellerId now env
    { order with status := OrderStatus.cancelled, cancelledAt := some now }
    sh2 db rc
  simp only [heq]
  exact ⟨by rw [cancelTail_resp]; rfl, hh.2, hrf.1, hrf.2.1, hrf.2.2.1,
    fun h => (hrf.2.2.2 h).1⟩

/-- Witness for C3: a paid confirmed order, gateway reporting 400 against a
total of 500, refund call failing: the amount is min 500 400 and the order
ends cancelled with paymentStatus refund_pending. -/
theorem cancelRefund_flow_witness :
    (updateOrderStatus "s1" 7 ⟨some (some 400), false⟩ sampleOrder none emptyDB
        OrderStatus.cancelled).effects.refundAmount = some 400
    ∧ (updateOrderStatus "s1" 7 ⟨some (some 400), false⟩ sampleOrder none
        emptyDB OrderStatus.cancelled).order.paymentStatus =
      PayStatus.refund_pending
    ∧ (updateOrderStatus "s1" 7 ⟨some (some 400), false⟩ sampleOrder none
        emptyDB OrderStatus.cancelled).order.status = OrderStatus.cancelled := by
  have h := cancelRefund_flow "s1" 7 ⟨some (some 400), false⟩ sampleOrder none
    emptyDB "cf1" rfl rfl (by decide) (by intro s hs; cases hs)
  refine ⟨?_, h.2.2.2.2.2 rfl, h.2.1⟩
  have := h.2.2.2.1 400 rfl (by norm_num)
  rw [this]
  decide

/-- Total quantity of a given product id across a list of line items. -/
def itemsQty (items : List OrderItem) (pid : String) : Int :=
  (items.map (fun i => if i.productId = pid then (i.quantity : Int) else 0)).sum

/-- Stock component of the stock-restoration fold. -/
theorem restoreStock_stock (paid : Bool) (items : List OrderItem)
    (db : ProductDB) (pid : String) :
    (restoreStock paid db items pid).stock = (db pid).stock + itemsQty items pid := by
  induction items generalizing db with
  | nil => simp [restoreStock, itemsQty]
  | cons i rest ih =>
    have h := ih (applyStockInc paid db i)
    simp only [restoreStock, List.foldl_cons] at h ⊢
    rw [h]
    by_cases hp : i.productId = pid
    · simp [applyStockInc, itemsQty, hp]
      ring
    · simp [applyStockInc, itemsQty, hp, Ne.symm hp]

/-- Order-counter component of the stock-restoration fold. -/
theorem restoreStock_orderCount (paid : Bool) (items : List OrderItem)
    (db : ProductDB) (pid : String) :
    (restoreStock paid db items pid).orderCount =
      if paid then (db pid).orderCount - itemsQty items pid
      else (db pid).orderCount := by
  induction items generalizing db with
  | nil => simp [restoreStock, itemsQty]
  | cons i rest ih =>
    have h := ih (applyStockInc paid db i)
    simp only [restoreStock, List.foldl_cons] at h ⊢
    rw [h]
    by_cases hp : i.productId = pid
    · cases paid <;> simp [applyStockInc, itemsQty, hp] <;> ring
    · have hp2 : ¬ pid = i.productId := fun hh => hp hh.symm
      cases paid <;> simp [applyStockInc, itemsQty, hp, hp2]

/-- C4: a successful cancellation increments each product stock by the
summed quantity of its line items exactly once, additionally decrements the
product order counter by that quantity when the order was paid, and a second
cancellation of the resulting order always fails because cancelled has no
outgoing transitions, so stock is never restored twice. -/
theorem cancelRestoresStock (sellerId : String) (now : Nat) (env : GatewayEnv)
    (order : Order) (shOpt : Option Shipment) (db : ProductDB)
    (hallow : OrderStatus.cancelled ∈ allowedTargets order.status)
    (hcust : ∀ s, shOpt = some s → s.shiprocketOrderId ≠ "" →
      s.status ∉ pickedUpStatuses) :
    let out := updateOrderStatus sellerId now env order shOpt db
      OrderStatus.cancelled
    out.resp.isOk = true
    ∧ (∀ pid, (out.products pid).stock = (db pid).stock + itemsQty order.items pid)
    ∧ (order.paymentStatus = PayStatus.paid →
        ∀ pid, (out.products pid).orderCount =
          (db pid).orderCount - itemsQty order.items pid)
    ∧ (order.paymentStatus ≠ PayStatus.paid →
        ∀ pid, (out.products pid).orderCount = (db pid).orderCount)
    ∧ (∀ (env2 : GatewayEnv) (sh2 : Option Shipment) (db2 : ProductDB),
        (updateOrderStatus sellerId now env2 out.order sh2 db2
            OrderStatus.cancelled).resp =
          Except.error ⟨400, "Cannot change from cancelled to cancelled"⟩) := by
  obtain ⟨sh2, rc, heq⟩ :=
    updateOrderStatus_cancel_eq sellerId now env order shOpt db hallow hcust
  have hh := cancelTail_history sellerId now env
    { order with status := OrderStatus.cancelled, cancelledAt := some now }
    sh2 db rc
  simp only [heq]
  refine ⟨by rw [cancelTail_resp]; rfl, ?_, ?_, ?_, ?_⟩
  · intro pid
    rw [cancelTail_products]
    exact restoreStock_stock _ _ _ _
  · intro hpaid pid
    rw [cancelTail_products]
    rw [restoreStock_orderCount]
    simp [hpaid]
  · intro hpaid pid
    rw [cancelTail_products]
    rw [restoreStock_orderCount]
    have : decide (order.paymentStatus = PayStatus.paid) = false := by
      simpa using hpaid
    simp [this]
  · intro env2 shp2 db2
    have hst := hh.2
    have hmem2 : OrderStatus.cancelled ∉ allowedTargets
        (cancelTail sellerId now env
          { order with status := OrderStatus.cancelled, cancelledAt := some now }
          sh2 db rc).order.status := by
      simp [hst, allowedTargets]
    rw [updateOrderStatus_invalid sellerId now env2 _ shp2 db2 _ hmem2]
    rw [hst]
    rfl

/-- Witness for C4: cancelling the sample paid order restores the stock of
its product by 2 and decrements its order counter by 2, and a second
cancellation fails. -/
theorem cancelRestoresStock_witness :
    ((updateOrderStatus "s1" 0 ⟨none, true⟩ sampleOrder none emptyDB
        OrderStatus.cancelled).products "p1").stock = 2
    ∧ ((updateOrderStatus "s1" 0 ⟨none, true⟩ sampleOrder none emptyDB
        OrderStatus.cancelled).products "p1").orderCount = -2
    ∧ (updateOrderStatus "s1" 0 ⟨none, true⟩
        (updateOrderStatus "s1" 0 ⟨none, true⟩ sampleOrder none emptyDB
          OrderStatus.cancelled).order none emptyDB
        OrderStatus.cancelled).resp =
      Except.error ⟨400, "Cannot change from cancelled to cancelled"⟩ := by
  have h := cancelRestoresStock "s1" 0 ⟨none, true⟩ sampleOrder none emptyDB
    (by decide) (by intro s hs; cases hs)
  refine ⟨?_, ?_, h.2.2.2.2 ⟨none, true⟩ none emptyDB⟩
  · have := h.2.1 "p1"
    rw [this]
    decide
  · have := h.2.2.1 rfl "p1"
    rw [this]
    decide

/-- C6: every successful status transition appends exactly one entry to the
order statusHistory, carrying the new status string, the timestamp, the
acting seller and a seller note, persisted together with the status change
(length grows by exactly one); a failed transition leaves the persisted
order unchanged, adding no history entry. -/
theorem statusUpdate_history (sellerId : String) (now : Nat) (env : GatewayEnv)
    (order : Order) (sh : Option Shipment) (db : ProductDB)
    (target : OrderStatus) :
    let out := updateOrderStatus sellerId now env order sh db target
    (out.resp.isOk = true →
      out.order.statusHistory =
        order.statusHistory ++ [transitionEntry sellerId now target]
      ∧ out.order.status = target
      ∧ out.order.statusHistory.length = order.statusHistory.length + 1)
    ∧ (out.resp.isOk = false → out.order = order) := by
  by_cases hmem : target ∈ allowedTargets order.status
  · by_cases hcan : target = OrderStatus.cancelled
    · subst hcan
      by_cases hblock : ∃ s, sh = some s ∧ s.shiprocketOrderId ≠ "" ∧
          s.status ∈ pickedUpStatuses
      · obtain ⟨s, rfl, hid, hst⟩ := hblock
        constructor
        · intro hok
          simp [updateOrderStatus, hmem, hid, hst, Except.isOk,
            Except.toBool] at hok
        · intro _
          simp [updateOrderStatus, hmem, hid, hst]
      · have hcust : ∀ s, sh = some s → s.shiprocketOrderId ≠ "" →
            s.status ∉ pickedUpStatuses := by
          intro s hs hid hst
          exact hblock ⟨s, hs, hid, hst⟩
        obtain ⟨sh2, rc, heq⟩ :=
          updateOrderStatus_cancel_eq sellerId now env order sh db hmem hcust
        have hh := cancelTail_history sellerId now env
          { order with status := OrderStatus.cancelled, cancelledAt := some now }
          sh2 db rc
        simp only [heq]
        constructor
        · intro _
          exact ⟨hh.1, hh.2, by rw [hh.1]; simp⟩
        · intro hfail
          rw [cancelTail_resp] at hfail
          simp [Except.isOk, Except.toBool] at hfail
    · by_cases hdel : target = OrderStatus.delivered
      · subst hdel
        constructor
        · intro _
          simp [updateOrderStatus, hmem]
        · intro hfail
          simp [updateOrderStatus, hmem, Except.isOk, Except.toBool] at hfail
      · constructor
        · intro _
          simp [updateOrderStatus, hmem, hcan, hdel]
        · intro hfail
          simp [updateOrderStatus, hmem, hcan, hdel, Except.isOk,
            Except.toBool] at hfail
  · constructor
    · intro hok
      simp [updateOrderStatus, hmem, Except.isOk, Except.toBool] at hok
    · intro _
      simp [updateOrderStatus, hmem]

/-- Witness for C6: marking the sample order processing appends exactly the
seller history entry. -/
theorem statusUpdate_history_witness :
    (updateOrderStatus "s1" 3 ⟨none, true⟩ sampleOrder none emptyDB
        OrderStatus.processing).order.statusHistory =
      sampleOrder.statusHistory ++ [transitionEntry "s1" 3 OrderStatus.processing] := by
  have h := statusUpdate_history "s1" 3 ⟨none, true⟩ sampleOrder none emptyDB
    OrderStatus.processing
  exact (h.1 (by decide)).1

/-- A sample seller with a verified, registered pickup location. -/
def sampleSeller : Seller := ⟨"s1", true, "LOC1"⟩

/-- A sample approved return request of type return over 500. -/
def sampleReturn : ReturnRequest :=
  { rid := "r1", orderId := "o1", customerId := "c1", sellerId := "s1"
    type := "return", status := RetStatus.shipped_back, refundAmount := 500
    refundId := none, rejectionReason := none, statusHistory := []
    resolvedAt := none }

/-- C5: createShipment requires the order to be paid, and is idempotent with
respect to remote creation: when a shipment already carrying a remote order
id exists, the call fails with HTTP 400, returns the existing record
unchanged, and performs no remote creation call. -/
theorem createShipment_guards (sellerId : String) (env : CreateEnv)
    (order : Order) (existing : Option Shipment) (seller : Seller)
    (body : CreateBody)
    (hsell : order.sellerId = sellerId) :
    ((createShipment sellerId env order existing seller body).resp.isOk = true →
      order.paymentStatus = PayStatus.paid)
    ∧ (order.paymentStatus ≠ PayStatus.paid →
        (createShipment sellerId env order existing seller body).resp =
          Except.error ⟨400, "Order not paid"⟩)
    ∧ (∀ e, existing = some e → e.shiprocketOrderId ≠ "" →
        order.paymentStatus = PayStatus.paid →
        (createShipment sellerId env order existing seller body).resp =
          Except.error ⟨400, "Shipment already created"⟩
        ∧ (createShipment sellerId env order existing seller body).shipment =
            some e
        ∧ (createShipment sellerId env order existing seller
            body).remoteCreateCalled = false) := by
  refine ⟨?_, ?_, ?_⟩
  · intro hok
    by_contra hpaid
    simp [createShipment, hsell, hpaid, Except.isOk, Except.toBool] at hok
  · intro hpaid
    simp [createShipment, hsell, hpaid]
  · intro e he hid hpaid
    subst he
    refine ⟨?_, ?_, ?_⟩ <;> simp [createShipment, hsell, hpaid, hid]

/-- Witness for C5: a second creation call against an existing shipment with
a remote order id fails, returns that shipment and makes no remote call. -/
theorem createShipment_guards_witness :
    (createShipment "s1" ⟨none, none, none⟩ sampleOrder (some sampleShipment)
        sampleSeller ⟨none, none, none, none⟩).resp =
      Except.error ⟨400, "Shipment already created"⟩
    ∧ (createShipment "s1" ⟨none, none, none⟩ sampleOrder (some sampleShipment)
        sampleSeller ⟨none, none, none, none⟩).shipment = some sampleShipment
    ∧ (createShipment "s1" ⟨none, none, none⟩ sampleOrder (some sampleShipment)
        sampleSeller ⟨none, none, none, none⟩).remoteCreateCalled = false := by
  have h := createShipment_guards "s1" ⟨none, none, none⟩ sampleOrder
    (some sampleShipment) sampleSeller ⟨none, none, none, none⟩ rfl
  exact h.2.2 sampleShipment rfl (by decide) rfl

/-- C7: for a paid confirmed order with no shipment, createShipment leaves a
shipment with status created and the order processing; assignCourier with
courierId 7 and rate 120 records courierId 7 and, when shipping is
seller-paid, actualShippingCost 120; schedulePickup then leaves the shipment
pickup_scheduled and the order shipped. -/
theorem shipping_pipeline (sellerId : String) (now : Nat) (cEnv : CreateEnv)
    (aEnv : AssignEnv) (pEnv : PickupEnv) (order : Order) (seller : Seller)
    (body : CreateBody) (cresp : CreateResp) (aresp : AssignResp)
    (hsell : order.sellerId = sellerId)
    (hpaid : order.paymentStatus = PayStatus.paid)
    (hstat : order.status = OrderStatus.confirmed)
    (hver : seller.shiprocketPickupVerified = true)
    (hloc : seller.shiprocketPickupLocation ≠ "")
    (hcr : cEnv.createResp = some cresp)
    (hoid : cresp.orderId ≠ "")
    (hshid : cresp.shipmentId ≠ "")
    (har : aEnv.assignResp = some aresp)
    (hpok : pEnv.result = Except.ok ()) :
    let out1 := createShipment sellerId cEnv order none seller body
    let out2 := assignCourier aEnv out1.shipment (some out1.order) 7 (some 120)
    let out3 := schedulePickup sellerId now pEnv out2.shipment out2.order
    out1.resp.isOk = true
    ∧ out1.shipment.map Shipment.status = some ShipStatus.created
    ∧ out1.order.status = OrderStatus.processing
    ∧ out2.resp.isOk = true
    ∧ out2.shipment.map Shipment.courierId = some (some 7)
    ∧ (order.shippingPaidBy = "seller" →
        out2.order.map Order.actualShippingCost = some (some 120))
    ∧ out3.resp.isOk = true
    ∧ out3.shipment.map Shipment.status = some ShipStatus.pickup_scheduled
    ∧ out3.order.map Order.status = some OrderStatus.shipped := by
  have hjr : jsRound 120 = 120 := by
    simp [jsRound]
    norm_num [Rat.floor]
  have hrp : ratePos (some 120) = true := by decide
  have hvt : isValidTransition OrderStatus.processing OrderStatus.shipped = true := by
    decide
  have h1 : createShipment sellerId cEnv order none seller body =
      ⟨Except.ok (), some { newShipment order.oid sellerId with
          shiprocketOrderId := cresp.orderId,
          shiprocketShipmentId := cresp.shipmentId,
          weight := clampQ 50 50000 (numOr body.weight 500),
          dimensions := ⟨clampQ 1 200 (numOr body.length 10),
            clampQ 1 200 (numOr body.width 10),
            clampQ 1 200 (numOr body.height 10)⟩,
          status := ShipStatus.created,
          statusHistory := [⟨"created", "Shipment created on Shiprocket"⟩] },
        { order with status := OrderStatus.processing }, seller, true⟩ := by
    simp [createShipment, hsell, hpaid, hver, hloc, hcr, hoid, hshid,
      newShipment]
  simp only [h1]
  by_cases hsp : order.shippingPaidBy = "seller" <;>
    simp [assignCourier, har, hrp, hjr, schedulePickup, hpok, hvt, hshid,
      newShipment, hsp, Except.isOk, Except.toBool]

/-- Witness for C7: the concrete pipeline over the sample order with
courierId 7 and rate 120. -/
theorem shipping_pipeline_witness :
    (createShipment "s1" ⟨none, some ⟨"sro1", "srs1"⟩, none⟩ sampleOrder none
        sampleSeller ⟨none, none, none, none⟩).order.status =
      OrderStatus.processing
    ∧ (assignCourier ⟨none, some ⟨"AWB1", "BlueDart"⟩⟩
        (createShipment "s1" ⟨none, some ⟨"sro1", "srs1"⟩, none⟩ sampleOrder
          none sampleSeller ⟨none, none, none, none⟩).shipment
        (some (createShipment "s1" ⟨none, some ⟨"sro1", "srs1"⟩, none⟩
          sampleOrder none sampleSeller ⟨none, none, none, none⟩).order) 7
        (some 120)).order.map Order.actualShippingCost = some (some 120)
    ∧ (schedulePickup "s1" 5 ⟨Except.ok ()⟩
        (assignCourier ⟨none, some ⟨"AWB1", "BlueDart"⟩⟩
          (createShipment "s1" ⟨none, some ⟨"sro1", "srs1"⟩, none⟩ sampleOrder
            none sampleSeller ⟨none, none, none, none⟩).shipment
          (some (createShipment "s1" ⟨none, some ⟨"sro1", "srs1"⟩, none⟩
            sampleOrder none sampleSeller ⟨none, none, none, none⟩).order) 7
          (some 120)).shipment
        (assignCourier ⟨none, some ⟨"AWB1", "BlueDart"⟩⟩
          (createShipment "s1" ⟨none, some ⟨"sro1", "srs1"⟩, none⟩ sampleOrder
            none sampleSeller ⟨none, none, none, none⟩).shipment
          (some (createShipment "s1" ⟨none, some ⟨"sro1", "srs1"⟩, none⟩
            sampleOrder none sampleSeller ⟨none, none, none, none⟩).order) 7
          (some 120)).order).order.map Order.status =
      some OrderStatus.shipped := by
  have h := shipping_pipeline "s1" 5 ⟨none, some ⟨"sro1", "srs1"⟩, none⟩
    ⟨none, some ⟨"AWB1", "BlueDart"⟩⟩ ⟨Except.ok ()⟩ sampleOrder sampleSeller
    ⟨none, none, none, none⟩ ⟨"sro1", "srs1"⟩ ⟨"AWB1", "BlueDart"⟩
    rfl rfl rfl rfl (by decide) rfl (by decide) (by decide) rfl rfl
  exact ⟨h.2.2.1, h.2.2.2.2.2.1 rfl, h.2.2.2.2.2.2.2.2⟩

/-- Whether a provider order-details result yields a usable first shipment
id (the test shipments.length greater than zero and shipments[0].id truthy
at seller.js:1298). -/
def detailsYieldId : Option (List String) → Bool
  | some (h :: _) => h != ""
  | _ => false

/-- C8: assignCourier on a shipment missing its remote shipment id but
carrying a remote order id always re-queries the provider order details
first; a recovered id is persisted on the shipment and the call does not
fail with MissingShipmentId; only when the details yield no id does the
call fail with the MissingShipmentId 400, leaving the shipment unchanged. -/
theorem assignCourier_selfHeal (env : AssignEnv) (s : Shipment)
    (orderOpt : Option Order) (courierId : Nat) (courierRate : Option ℚ)
    (hmiss : s.shiprocketShipmentId = "") (hoid : s.shiprocketOrderId ≠ "") :
    let out := assignCourier env (some s) orderOpt courierId courierRate
    out.detailsFetchCalled = true
    ∧ (∀ hd tl, env.detailsShipments = some (hd :: tl) → hd ≠ "" →
        out.shipment.map Shipment.shiprocketShipmentId = some hd
        ∧ out.resp ≠ Except.error ⟨400,
            "Shipment ID missing — please recreate the shipment"⟩)
    ∧ (detailsYieldId env.detailsShipments = false →
        out.resp = Except.error ⟨400,
          "Shipment ID missing — please recreate the shipment"⟩
        ∧ out.shipment = some s) := by
  refine ⟨?_, ?_, ?_⟩
  · rcases hd : env.detailsShipments with _ | ⟨_ | ⟨h, t⟩⟩ <;>
      simp [assignCourier, hmiss, hoid, hd] <;>
      (try by_cases hh : h = "") <;>
      simp_all [assignCourier] <;>
      (cases env.assignResp <;> simp)
  · intro hd tl hds hne
    rcases ha : env.assignResp with _ | r <;>
      simp [assignCourier, hmiss, hoid, hds, hne, ha]
  · intro hnoid
    rcases hd : env.detailsShipments with _ | ⟨_ | ⟨h, t⟩⟩ <;>
      simp [hd, detailsYieldId] at hnoid ⊢ <;>
      simp [assignCourier, hmiss, hoid, hd, hnoid]

/-- Witness for C8: with details reporting id 99 the shipment is healed to
99; with a throwing details call the MissingShipmentId 400 is returned. -/
theorem assignCourier_selfHeal_witness :
    ((assignCourier ⟨some ["99"], some ⟨"AWB1", "BlueDart"⟩⟩
        (some { sampleShipment with shiprocketShipmentId := "" }) none 7
        (some 120)).shipment.map Shipment.shiprocketShipmentId = some "99")
    ∧ (assignCourier ⟨none, some ⟨"AWB1", "BlueDart"⟩⟩
        (some { sampleShipment with shiprocketShipmentId := "" }) none 7
        (some 120)).resp =
      Except.error ⟨400, "Shipment ID missing — please recreate the shipment"⟩ := by
  have h1 := assignCourier_selfHeal ⟨some ["99"], some ⟨"AWB1", "BlueDart"⟩⟩
    { sampleShipment with shiprocketShipmentId := "" } none 7 (some 120)
    rfl (by decide)
  have h2 := assignCourier_selfHeal ⟨none, some ⟨"AWB1", "BlueDart"⟩⟩
    { sampleShipment with shiprocketShipmentId := "" } none 7 (some 120)
    rfl (by decide)
  exact ⟨(h1.2.1 "99" [] rfl (by decide)).1, (h2.2.2 rfl).1⟩

/-- C9: markReceived on a return-type request whose order has a gateway
reference and positive refund amount attempts a refund; on gateway success
the request becomes refunded with the refund id recorded and the order
paymentStatus becomes refund_pending; on gateway failure the request stays
received, its history gains the failure note, its refund id is untouched and
the order is unchanged. -/
theorem markReceived_refund (sellerId : String) (now : Nat) (env : RefundEnv)
    (returnReq : ReturnRequest) (order : Order) (cf : String)
    (hsell : returnReq.sellerId = sellerId)
    (hstat : returnReq.status ∈ [RetStatus.approved, RetStatus.shipped_back])
    (htype : returnReq.type = "return")
    (hcf : order.cashfreeOrderId = some cf)
    (hamt : 0 < returnReq.refundAmount) :
    let out := markReceived sellerId now env returnReq (some order)
    out.resp.isOk = true
    ∧ out.refundCalled = true
    ∧ (env.refundOk = true →
        out.returnReq.status = RetStatus.refunded
        ∧ out.returnReq.refundId =
            some ("return_" ++ order.orderNumber ++ "_" ++ toString now)
        ∧ out.order.map Order.paymentStatus = some PayStatus.refund_pending
        ∧ out.order.map Order.refundId =
            some (some ("return_" ++ order.orderNumber ++ "_" ++ toString now)))
    ∧ (env.refundOk = false →
        out.returnReq.status = RetStatus.received
        ∧ out.returnReq.refundId = returnReq.refundId
        ∧ (⟨"received", now, none, "system",
            "Refund failed: " ++ env.errMsg⟩ : HistoryEntry) ∈
            out.returnReq.statusHistory
        ∧ out.order = some order) := by
  have hst := hstat
  simp only [List.mem_cons, List.not_mem_nil, or_false] at hst
  cases hr : env.refundOk <;> rcases hst with h | h <;>
    simp [markReceived, hsell, h, htype, hcf, hamt, hr, Except.isOk,
      Except.toBool]

/-- Witness for C9: the sample return over 500 with a successful gateway
refund becomes refunded and sets the order to refund_pending; with a failing
gateway it stays received. -/
theorem markReceived_refund_witness :
    (markReceived "s1" 9 ⟨true, ""⟩ sampleReturn (some sampleOrder)).returnReq.status =
      RetStatus.refunded
    ∧ (markReceived "s1" 9 ⟨true, ""⟩ sampleReturn
        (some sampleOrder)).order.map Order.paymentStatus =
      some PayStatus.refund_pending
    ∧ (markReceived "s1" 9 ⟨false, "gateway down"⟩ sampleReturn
        (some sampleOrder)).returnReq.status = RetStatus.received := by
  have hT := markReceived_refund "s1" 9 ⟨true, ""⟩ sampleReturn sampleOrder
    "cf1" rfl (by decide) rfl rfl (by norm_num [sampleReturn])
  have hF := markReceived_refund "s1" 9 ⟨false, "gateway down"⟩ sampleReturn
    sampleOrder "cf1" rfl (by decide) rfl rfl (by norm_num [sampleReturn])
  exact ⟨(hT.2.2.1 rfl).1, (hT.2.2.1 rfl).2.2.1, (hF.2.2.2 rfl).1⟩

end Giftsity
